import Mathlib

/-!
Shallow embedding of the prompt-and-response pipeline of the revenue-rescue
repository (Next.js route handlers `src/app/api/chat/route.ts` and
`src/app/api/generate-report/route.ts`, client page `src/app/chat/page.tsx`
and component `src/components/chat-interface.tsx`).

Strings are modelled as `List Char`.  JavaScript's regular-expression based
`String.replace(..., "")` calls are modelled by a left-to-right scan
(`gsubAux`) with a deterministic matcher per pattern; each of the four
patterns used by the source is deterministic (no backtracking can change the
match), so this models the JS semantics exactly.  `JSON.parse` is modelled by
a fuel-based recursive-descent parser over the same character lists; numeric
literals are modelled as integers (fraction/exponent forms are outside the
model and treated as parse failures, which is conservative: every theorem
quantifying over parses is either hypothesis-guarded or evaluated on integer
inputs).  Timestamps (`new Date()`) are modelled as an explicit `Nat`
parameter.
-/

namespace RevenueRescue

/-- Strings are modelled as lists of characters. -/
abbrev Str := List Char

/-- Character list of a Lean string literal. -/
def str (s : String) : Str := s.data

/-- The `{` character (written via its code point). -/
def lbrace : Char := Char.ofNat 123

/-- The `}` character (written via its code point). -/
def rbrace : Char := Char.ofNat 125

/-- The apostrophe character (written via its code point). -/
def apos : Char := Char.ofNat 39

/-- JavaScript whitespace (the set recognised by `String.prototype.trim` and
by `\s`, restricted to the code points that occur in this development):
space, tab, line feed, carriage return, vertical tab, form feed, no-break
space, BOM. -/
def jsWhitespace (c : Char) : Bool :=
  [32, 9, 10, 13, 11, 12, 160, 65279].contains c.toNat

/-- Model of `String.prototype.trim`: strip leading and trailing
JavaScript whitespace. -/
def trimJS (l : Str) : Str :=
  ((l.dropWhile jsWhitespace).reverse.dropWhile jsWhitespace).reverse

/-- Case-insensitive literal match at the head of the input; on success
returns the remaining input.  Models a case-insensitively matched literal
regex fragment. -/
def matchCI : Str → Str → Option Str
  | [], l => some l
  | _ :: _, [] => none
  | p :: ps, c :: cs => if p.toLower == c.toLower then matchCI ps cs else none

/-- JavaScript `\w`: ASCII letters, digits, underscore. -/
def isWordChar (c : Char) : Bool := c.isAlpha || c.isDigit || c == '_'

/-- Matcher for the regex `on\w+\s*=` (flags `gi`) at the head of the
input.  The regex is deterministic: `\w+` is maximal (backtracking it puts a
word character where `=` is required, and `\s*` cannot give back characters
that would then have to equal `=`). -/
def matchOn (l : Str) : Option Str :=
  match l with
  | c1 :: c2 :: rest =>
    if c1.toLower == 'o' && c2.toLower == 'n' then
      match rest.takeWhile isWordChar with
      | [] => none
      | _ :: _ =>
        match (rest.dropWhile isWordChar).dropWhile jsWhitespace with
        | c :: r3 => if c == '=' then some r3 else none
        | [] => none
    else none
  | _ => none

/-- Body loop of the tag regex `<tag\b[^<]*(?:(?!<\/tag>)<[^<]*)*<\/tag>`:
skip non-`<` characters, stop when the closing literal is found, otherwise
step over a lone `<`.  Fuel bounds the loop (each step consumes at least one
character). -/
def tagBody (clos : Str) : Nat → Str → Option Str
  | 0, _ => none
  | fuel + 1, l =>
    let r := l.dropWhile (fun c => !(c == '<'))
    match matchCI clos r with
    | some rest => some rest
    | none =>
      match r with
      | c :: r2 => if c == '<' then tagBody clos fuel r2 else none
      | [] => none

/-- Matcher for `<tag\b[^<]*(?:(?!<\/tag>)<[^<]*)*<\/tag>` (flags `gi`) at
the head of the input: the opening literal, a word boundary, then the body
loop up to the closing literal.  The regex is deterministic, see `tagBody`. -/
def matchTag (openT clos : Str) (l : Str) : Option Str :=
  match matchCI openT l with
  | none => none
  | some r =>
    match r with
    | [] => none
    | c :: _ => if isWordChar c then none else tagBody clos (r.length + 1) r

/-- One global-replace-by-empty pass, as JavaScript `text.replace(re, "")`
with a global regex: scan left to right, at each position try the matcher;
on a match drop it and resume after it, otherwise keep the character.  Fuel
is the input length (every step consumes at least one character). -/
def gsubAux (m : Str → Option Str) : Nat → Str → Str
  | 0, l => l
  | _ + 1, [] => []
  | fuel + 1, c :: cs =>
    match m (c :: cs) with
    | some rest => gsubAux m fuel rest
    | none => c :: gsubAux m fuel cs

/-- Global replace-by-empty over the whole input. -/
def gsub (m : Str → Option Str) (l : Str) : Str := gsubAux m l.length l

def scriptOpen : Str := str "<script"
def scriptClos : Str := str "</script>"
def iframeOpen : Str := str "<iframe"
def iframeClos : Str := str "</iframe>"
def jsUri : Str := str "javascript:"

/-- Model of `sanitizeOutput` from both route handlers: remove `<script>…</script>`
blocks, `<iframe>…</iframe>` blocks, `javascript:` occurrences and
`on\w+\s*=` event-handler patterns (each one global, case-insensitive,
single pass, in this order), then trim. -/
def sanitizeOutput (l : Str) : Str :=
  trimJS (gsub matchOn
    (gsub (matchCI jsUri)
      (gsub (matchTag iframeOpen iframeClos)
        (gsub (matchTag scriptOpen scriptClos) l))))

/-! JSON values

Model of the JavaScript values produced by `JSON.parse` on the report
payload, together with JS truthiness (the `!report.section` checks). -/

inductive Json where
  | null : Json
  | bool (b : Bool) : Json
  | num (n : Int) : Json
  | strVal (s : Str) : Json
  | arr (elems : List Json) : Json
  | obj (fields : List (Str × Json)) : Json

/-- JavaScript truthiness of a parsed JSON value: `null`, `false`, `0` and
`""` are falsy; every array and object (even empty) is truthy. -/
def truthy : Json → Bool
  | .null => false
  | .bool b => b
  | .num n => !(n == 0)
  | .strVal s => !s.isEmpty
  | .arr _ => true
  | .obj _ => true

def lookupField : List (Str × Json) → Str → Option Json
  | [], _ => none
  | (k, v) :: rest, key => if k == key then some v else lookupField rest key

/-- JavaScript property access `value[key]` on a parsed JSON value:
`some` on an object that has the key, `none` (undefined) otherwise. -/
def getField : Json → Str → Option Json
  | .obj fields, key => lookupField fields key
  | _, _ => none

/-! JSON parser (model of `JSON.parse`) -/

/-- JSON insignificant whitespace (space, tab, line feed, carriage
return). -/
def jsonWs (c : Char) : Bool := [32, 9, 10, 13].contains c.toNat

def skipWs (l : Str) : Str := l.dropWhile jsonWs

/-- Value of one hexadecimal digit of a `\u` escape (digits, lower-case
and upper-case letters, by code point). -/
def hexVal (c : Char) : Option Nat :=
  let n := c.toNat
  if 48 ≤ n ∧ n ≤ 57 then some (n - 48)
  else if 97 ≤ n ∧ n ≤ 102 then some (n - 87)
  else if 65 ≤ n ∧ n ≤ 70 then some (n - 55)
  else none

/-- Decoded character of a two-character JSON string escape, by code
point: quote, backslash and slash stand for themselves; the letters b, f,
n, r, t stand for the usual control characters. -/
def escapeChar (c : Char) : Option Char :=
  match c.toNat with
  | 34 => some (Char.ofNat 34)
  | 92 => some (Char.ofNat 92)
  | 47 => some (Char.ofNat 47)
  | 98 => some (Char.ofNat 8)
  | 102 => some (Char.ofNat 12)
  | 110 => some (Char.ofNat 10)
  | 114 => some (Char.ofNat 13)
  | 116 => some (Char.ofNat 9)
  | _ => none

/-- String body parser, positioned just after the opening quote; returns the
decoded characters and the input after the closing quote. -/
def parseStringAux : Nat → Str → Option (Str × Str)
  | 0, _ => none
  | fuel + 1, l =>
    match l with
    | [] => none
    | '"' :: rest => some ([], rest)
    | '\\' :: 'u' :: h1 :: h2 :: h3 :: h4 :: rest =>
      match hexVal h1, hexVal h2, hexVal h3, hexVal h4 with
      | some a, some b, some c, some d =>
        match parseStringAux fuel rest with
        | some (s, r) => some (Char.ofNat (((a * 16 + b) * 16 + c) * 16 + d) :: s, r)
        | none => none
      | _, _, _, _ => none
    | '\\' :: e :: rest =>
      match escapeChar e with
      | some c =>
        match parseStringAux fuel rest with
        | some (s, r) => some (c :: s, r)
        | none => none
      | none => none
    | c :: rest =>
      match parseStringAux fuel rest with
      | some (s, r) => some (c :: s, r)
      | none => none

def digitsVal : Str → Nat → Nat
  | [], acc => acc
  | c :: cs, acc => digitsVal cs (acc * 10 + (c.toNat - '0'.toNat))

/-- Integer numeric literal: optional sign and decimal digits.  Fractional
and exponent forms are outside the integer model of JSON numbers and fail. -/
def parseNumber (l : Str) : Option (Json × Str) :=
  let signed := match l with
    | c :: rest => if c == '-' then (true, rest) else (false, l)
    | [] => (false, l)
  match signed.2.takeWhile Char.isDigit with
  | [] => none
  | ds =>
    let rest := signed.2.dropWhile Char.isDigit
    match rest with
    | c :: _ =>
      if c == '.' || c == 'e' || c == 'E' then none
      else some (.num (if signed.1 then -(digitsVal ds 0 : Int) else (digitsVal ds 0 : Int)), rest)
    | [] => some (.num (if signed.1 then -(digitsVal ds 0 : Int) else (digitsVal ds 0 : Int)), rest)

/-- Exact (case-sensitive) literal at the head of the input. -/
def dropLit : Str → Str → Option Str
  | [], l => some l
  | _ :: _, [] => none
  | p :: ps, c :: cs => if p == c then dropLit ps cs else none

mutual

/-- Value parser with fuel (every recursive call consumes input). -/
def parseValue : Nat → Str → Option (Json × Str)
  | 0, _ => none
  | fuel + 1, l =>
    match skipWs l with
    | [] => none
    | c :: rest =>
      if c == lbrace then
        match skipWs rest with
        | d :: rest2 =>
          if d == rbrace then some (.obj [], rest2)
          else
            match parseMembers fuel (d :: rest2) with
            | some (fields, r) => some (.obj fields, r)
            | none => none
        | [] => none
      else if c == '[' then
        match skipWs rest with
        | d :: rest2 =>
          if d == ']' then some (.arr [], rest2)
          else
            match parseElems fuel (d :: rest2) with
            | some (es, r) => some (.arr es, r)
            | none => none
        | [] => none
      else if c == '"' then
        match parseStringAux (rest.length + 1) rest with
        | some (s, r) => some (.strVal s, r)
        | none => none
      else if c == 't' then
        match dropLit (str "true") (c :: rest) with
        | some r => some (.bool true, r)
        | none => none
      else if c == 'f' then
        match dropLit (str "false") (c :: rest) with
        | some r => some (.bool false, r)
        | none => none
      else if c == 'n' then
        match dropLit (str "null") (c :: rest) with
        | some r => some (.null, r)
        | none => none
      else parseNumber (c :: rest)

/-- Object members parser, positioned at the first key (not at `}`). -/
def parseMembers : Nat → Str → Option (List (Str × Json) × Str)
  | 0, _ => none
  | fuel + 1, l =>
    match skipWs l with
    | '"' :: rest =>
      match parseStringAux (rest.length + 1) rest with
      | some (key, r1) =>
        match skipWs r1 with
        | ':' :: r2 =>
          match parseValue fuel r2 with
          | some (v, r3) =>
            match skipWs r3 with
            | ',' :: r4 =>
              match parseMembers fuel r4 with
              | some (fields, r5) => some ((key, v) :: fields, r5)
              | none => none
            | d :: r4 =>
              if d == rbrace then some ([(key, v)], r4) else none
            | [] => none
          | none => none
        | _ => none
      | none => none
    | _ => none

/-- Array elements parser, positioned at the first element (not at `]`). -/
def parseElems : Nat → Str → Option (List Json × Str)
  | 0, _ => none
  | fuel + 1, l =>
    match parseValue fuel l with
    | some (v, r1) =>
      match skipWs r1 with
      | ',' :: r2 =>
        match parseElems fuel r2 with
        | some (es, r3) => some (v :: es, r3)
        | none => none
      | ']' :: r2 => some ([v], r2)
      | _ => none
    | none => none

end

/-- Model of `JSON.parse`: parse one value and require only whitespace to
remain. -/
def parseJson (l : Str) : Option Json :=
  match parseValue (l.length + 1) l with
  | some (v, rest) => if (skipWs rest).isEmpty then some v else none
  | none => none

/-! Report generation endpoint (`src/app/api/generate-report/route.ts`) -/

/-- The request's `csvData` (interface `CSVData`): column names, total row
count, sampled rows (each a parsed JSON record), file name. -/
structure CSVData where
  schema : List Str
  rowCount : Nat
  sample : List Json
  fileName : Str

/-- The six required top-level sections of a `BusinessReport`, in the order
the handler checks them. -/
def requiredSections : List Str :=
  [str "dataset_summary", str "churn_analysis", str "financial_projections",
   str "demand_forecasting", str "scenario_analysis", str "recommendations"]

/-- The handler's validation: every required section must be present and
truthy (`!report.section` throws into the fallback branch otherwise). -/
def validateReport (j : Json) : Bool :=
  requiredSections.all (fun k =>
    match getField j k with
    | some v => truthy v
    | none => false)

/-- The part of a string up to and including its last closing brace
(`none` when it has no closing brace). -/
def cutAtLastRbrace (t : Str) : Option Str :=
  match (t.reverse.dropWhile (fun c => !(c == rbrace))).reverse with
  | [] => none
  | u => some u

/-- Model of `rawText.match(/\{[\s\S]*\}/)`: the substring from the first opening
brace to the last closing brace (the regex is greedy, so the match runs
from the first possible start to the last closing brace), `none` when there
is no opening brace followed by a closing one. -/
def extractBraces (l : Str) : Option Str :=
  match l.dropWhile (fun c => !(c == lbrace)) with
  | [] => none
  | c :: t =>
    match cutAtLastRbrace t with
    | some u => some (c :: u)
    | none => none

/-- The fixed fallback `BusinessReport` (route lines 130–149): only
`dataset_summary` depends on the request's dataset. -/
def fallbackReport (csv : CSVData) : Json :=
  .obj
    [ (str "dataset_summary",
        .obj [(str "rows", .num csv.rowCount), (str "columns", .num csv.schema.length)])
    , (str "churn_analysis",
        .obj [ (str "churn_rate", .strVal (str "15%"))
             , (str "churn_loss", .strVal (str "$50,000"))
             , (str "key_segments",
                 .arr [.strVal (str "High-value customers"), .strVal (str "Long-term subscribers")])])
    , (str "financial_projections",
        .obj [ (str "current_revenue", .strVal (str "$500,000"))
             , (str "projected_revenue",
                 .obj [ (str "3_months", .strVal (str "$525,000"))
                      , (str "6_months", .strVal (str "$550,000"))
                      , (str "12_months", .strVal (str "$600,000"))])
             , (str "remaining_profit", .strVal (str "$200,000"))])
    , (str "demand_forecasting",
        .obj [ (str "trend", .strVal (str "increasing"))
             , (str "seasonal_spikes", .arr [.strVal (str "Q4"), .strVal (str "Q1")])])
    , (str "scenario_analysis",
        .obj [ (str "best_case", .strVal (str "$750,000"))
             , (str "worst_case", .strVal (str "$400,000"))
             , (str "most_likely", .strVal (str "$600,000"))])
    , (str "recommendations",
        .arr [ .strVal (str "Implement customer retention programs to reduce churn")
             , .strVal (str "Focus on high-value customer segments for growth")
             , .strVal (str "Optimize pricing strategy for seasonal demand")])
    ]

/-- Parse (`JSON.parse`) followed by the six-section validation; `none` covers both
the parse error and the thrown `Missing required report sections`. -/
def parseReport (s : Str) : Option Json :=
  match parseJson s with
  | some v => if validateReport v then some v else none
  | none => none

/-- Outcome of the handler after the model text arrived (lines 99–152):
`ok` is the 200 response carrying the report, `invalidFormat` the 500
response with error text `Invalid response format from AI service`. -/
inductive ReportResult where
  | ok (report : Json) : ReportResult
  | invalidFormat : ReportResult

/-- HTTP status of a `ReportResult`. -/
def ReportResult.status : ReportResult → Nat
  | .ok _ => 200
  | .invalidFormat => 500

/-- The handler's response processing for a request with `csvData` present,
given the raw model text: sanitize, extract the brace-delimited substring
(500 if absent), parse and validate (fallback report on failure). -/
def processReport (csv : CSVData) (rawText : Str) : ReportResult :=
  match extractBraces (sanitizeOutput rawText) with
  | none => .invalidFormat
  | some s =>
    match parseReport s with
    | some report => .ok report
    | none => .ok (fallbackReport csv)

/-- The markdown code fence opener used in end-to-end scenario 3. -/
def fencePre : Str := str "```json\n"

/-- The markdown code fence closer used in end-to-end scenario 3. -/
def fencePost : Str := str "\n```"

/-- Model text consisting of a payload wrapped in markdown code fences. -/
def wrapFences (inner : Str) : Str := fencePre ++ inner ++ fencePost

/-! Chat endpoint (`src/app/api/chat/route.ts`) and client state -/

/-- Message tags: the client's `Message` type is `user | bot | report`. -/
inductive MType where
  | user : MType
  | bot : MType
  | report : MType
deriving DecidableEq

/-- A conversation entry; the timestamp (`new Date()`) is modelled as a
`Nat`. -/
structure ChatMessage where
  type : MType
  message : Str
  timestamp : Nat
deriving DecidableEq

/-- The filter of the history context: `msg.type === "user" || msg.type ===
"bot"`. -/
def eligible (m : ChatMessage) : Bool := m.type == MType.user || m.type == MType.bot

/-- JavaScript `array.slice(-n)`: the last `n` elements (the whole array
when shorter). -/
def sliceLast (n : Nat) (l : List α) : List α := l.drop (l.length - n)

/-- Model of `chatHistory.slice(-10).filter(msg => msg.type === "user" ||
msg.type === "bot")` (route lines 74–75). -/
def recentHistory (h : List ChatMessage) : List ChatMessage :=
  (sliceLast 10 h).filter eligible

/-- Decimal rendering of a number, as JS template interpolation. -/
def natStr (n : Nat) : Str := (toString n).data

def intStr (n : Int) : Str := (toString n).data

/-- String escaping of `JSON.stringify` (restricted to the characters the
model uses). -/
def escapeJS (c : Char) : Str :=
  match c.toNat with
  | 34 => ['\\', '"']
  | 92 => ['\\', '\\']
  | 10 => ['\\', 'n']
  | 13 => ['\\', 'r']
  | 9 => ['\\', 't']
  | _ => [c]

def strLit (k : Str) : Str := '"' :: (k.flatMap escapeJS ++ ['"'])

mutual

/-- Model of `JSON.stringify` of a parsed JSON value (used to render sample rows). -/
def stringifyJson : Json → Str
  | .null => str "null"
  | .bool true => str "true"
  | .bool false => str "false"
  | .num n => intStr n
  | .strVal s => strLit s
  | .arr es => '[' :: (stringifyArr es ++ [']'])
  | .obj fs => lbrace :: (stringifyObj fs ++ [rbrace])

def stringifyArr : List Json → Str
  | [] => []
  | [e] => stringifyJson e
  | e :: es => stringifyJson e ++ ',' :: stringifyArr es

def stringifyObj : List (Str × Json) → Str
  | [] => []
  | [(k, v)] => strLit k ++ ':' :: stringifyJson v
  | (k, v) :: fs => strLit k ++ ':' :: stringifyJson v ++ ',' :: stringifyObj fs

end

/-- The line `Record (index+1): JSON.stringify(row)` for each sampled row. -/
def renderRecords : Nat → List Json → List Str
  | _, [] => []
  | i, r :: rs =>
    (str "Record " ++ natStr (i + 1) ++ str ": " ++ stringifyJson r) :: renderRecords (i + 1) rs

/-- JavaScript `Array.prototype.join`. -/
def joinWith (sep : Str) : List Str → Str
  | [] => []
  | [x] => x
  | x :: xs => x ++ sep ++ joinWith sep xs

/-- The `csvContext` template of the chat route (lines 59–68), for a present
`csvData`.  Adjacent string literals are split at the boundaries of the
fragments the theorems talk about; their concatenation is exactly the
source's template text. -/
def csvContextChat (d : CSVData) : Str :=
  str "\nBUSINESS DATASET CONTEXT:\n- File: " ++ d.fileName ++
  str "\n- " ++ str "Total Records: " ++ natStr d.rowCount ++
  str "\n- " ++ str "Data Fields (" ++ natStr d.schema.length ++ str "): " ++
  joinWith (str ", ") d.schema ++
  str "\n\nSample Business Data (" ++ natStr d.sample.length ++ str " rows analyzed):\n" ++
  joinWith (str "\n") (renderRecords 0 d.sample) ++
  str "\n\n" ++ str "ANALYSIS SCOPE: This analysis covers " ++ natStr d.sample.length ++
  str " sample records from a total dataset of " ++ natStr d.rowCount ++
  str " records. Insights are extrapolated to represent the full dataset where applicable."

/-- The early validation of the chat route (`if (!message?.trim())`,
lines 35–37): `some` is the 400 response carrying the error text
`Message is required`, `none` means validation passed. -/
def chatValidationError (m : Str) : Option Str :=
  if (trimJS m).isEmpty then some (str "Message is required") else none

/-- The literal default of
`data.candidates?.[0]?.content?.parts?.[0]?.text || "Sorry, I couldn't
generate a response."`. -/
def chatFallbackText : Str :=
  str "Sorry, I couldn" ++ [apos] ++ str "t generate a response."

/-- Evaluation of `text || fallback`: the fallback replaces an absent or empty (falsy)
candidate text. -/
def extractCandidateText (t : Option Str) : Str :=
  match t with
  | some txt => if txt.isEmpty then chatFallbackText else txt
  | none => chatFallbackText

/-- The text of the chat route's 200 response body on upstream HTTP
success (lines 132–137): extract the candidate text, then sanitize. -/
def chatResponseText (t : Option Str) : Str :=
  sanitizeOutput (extractCandidateText t)

/-- The fixed greeting of `handleClearChat` / the initial state
(`src/app/chat/page.tsx`). -/
def greetingText : Str :=
  str "👋 Hi! I" ++ [apos] ++
  str "m your Data Assistant. Upload a CSV file and ask me questions like " ++
  [apos] ++ str "Which product had the highest sales last month?" ++ [apos] ++
  str " or " ++ [apos] ++ str "Compare expenses across regions." ++ [apos] ++
  str " I" ++ [apos] ++ str "ll analyze and give you real-time insights."

/-- Model of `handleClearChat`: replace the whole history by the single greeting
message stamped with the current time (the prior state is ignored). -/
def clearChat (now : Nat) (_prev : List ChatMessage) : List ChatMessage :=
  [{ type := MType.bot, message := greetingText, timestamp := now }]

/-! Concrete data used by witnesses and counterexamples -/

/-- Whether a string has neither a leading nor a trailing JavaScript
whitespace character. -/
def noEdgeWs (l : Str) : Bool :=
  (match l.head? with
   | some c => !(jsWhitespace c)
   | none => true) &&
  (match l.getLast? with
   | some c => !(jsWhitespace c)
   | none => true)

/-- A concrete dataset descriptor. -/
def csvEx : CSVData := ⟨[str "date", str "revenue"], 5, [], str "data.csv"⟩

/-- A second concrete dataset descriptor, different from `csvEx`. -/
def csvEx2 : CSVData := ⟨[str "region"], 3, [], str "other.csv"⟩

/-- A concrete dataset descriptor whose row count exceeds its sample size
(end-to-end scenario 1 shape). -/
def dEx : CSVData :=
  ⟨[str "date", str "revenue", str "customer_id"], 1000,
   [Json.obj [(str "date", Json.strVal (str "2024-01-01"))]], str "sales.csv"⟩

/-- A history of eleven eligible (user) entries followed by one report
entry: more than ten eligible entries, with the report entry among the last
ten raw entries. -/
def exHistory : List ChatMessage :=
  (List.range 11).map (fun i => ChatMessage.mk MType.user (natStr i) i) ++
  [ChatMessage.mk MType.report (str "report") 11]

/-- A history of twelve eligible (user) entries. -/
def allUserHistory : List ChatMessage :=
  (List.range 12).map (fun i => ChatMessage.mk MType.user (natStr i) i)

/-- A complete, valid report payload (six truthy top-level sections). -/
def innerEx : Str :=
  str "\x7b\"dataset_summary\":\x7b\"rows\":3,\"columns\":2\x7d,\"churn_analysis\":\x7b\x7d,\"financial_projections\":\x7b\x7d,\"demand_forecasting\":\x7b\x7d,\"scenario_analysis\":\x7b\x7d,\"recommendations\":[\"a\"]\x7d"

/-- The parse of `innerEx`. -/
def jEx : Json :=
  .obj [ (str "dataset_summary", .obj [(str "rows", .num 3), (str "columns", .num 2)])
       , (str "churn_analysis", .obj [])
       , (str "financial_projections", .obj [])
       , (str "demand_forecasting", .obj [])
       , (str "scenario_analysis", .obj [])
       , (str "recommendations", .arr [.strVal (str "a")])]

/-! Helper lemmas -/

theorem dropWhile_append_all {α : Type} (p : α → Bool) {l₁ : List α} (l₂ : List α)
    (h : ∀ a ∈ l₁, p a = true) :
    (l₁ ++ l₂).dropWhile p = l₂.dropWhile p := by
  rw [List.dropWhile_append, List.dropWhile_eq_nil_iff.mpr h]
  simp

theorem head?_dropWhile {α : Type} {p : α → Bool} {l : List α} {c : α}
    (h : (l.dropWhile p).head? = some c) : p c = false := by
  induction l with
  | nil => cases h
  | cons a t ih =>
    rw [List.dropWhile_cons] at h
    by_cases hpa : p a = true
    · rw [if_pos hpa] at h; exact ih h
    · rw [if_neg hpa] at h
      injection h with h'
      subst h'
      exact Bool.eq_false_iff.mpr hpa

theorem within_appL {α : Type} (a : List α) {l w : List α} (h : l <:+: w) : l <:+: a ++ w := by
  obtain ⟨s, t, rfl⟩ := h
  exact ⟨a ++ s, t, by simp⟩

theorem within_front {α : Type} (l rest : List α) : l <:+: l ++ rest :=
  ⟨[], rest, by simp⟩

theorem within_front2 {α : Type} (x y rest : List α) : (x ++ y) <:+: x ++ (y ++ rest) :=
  ⟨[], rest, by simp⟩

theorem within_front3 {α : Type} (x y z rest : List α) :
    (x ++ (y ++ z)) <:+: x ++ (y ++ (z ++ rest)) :=
  ⟨[], rest, by simp⟩

theorem within_joinWith (sep : Str) : ∀ (l : List Str) (x : Str), x ∈ l → x <:+: joinWith sep l
  | [], x, hx => absurd hx (List.not_mem_nil x)
  | [_], x, hx => by
    rw [List.mem_singleton] at hx
    subst hx
    exact (⟨[], [], by simp⟩ : x <:+: x)
  | y :: z :: zs, x, hx => by
    rcases List.mem_cons.mp hx with rfl | hx'
    · show x <:+: x ++ sep ++ joinWith sep (z :: zs)
      rw [List.append_assoc]
      exact within_front _ _
    · have ih := within_joinWith sep (z :: zs) x hx'
      show x <:+: y ++ sep ++ joinWith sep (z :: zs)
      rw [List.append_assoc]
      exact within_appL y (within_appL sep ih)

theorem sliceLast_append {α : Type} (n : Nat) (a b : List α) (hb : b.length = n) :
    sliceLast n (a ++ b) = b := by
  unfold sliceLast
  rw [List.length_append, hb, show a.length + n - n = a.length from by omega, List.drop_left]

theorem validateReport_fallback (csv : CSVData) : validateReport (fallbackReport csv) = true := rfl

theorem trimJS_noEdge (l : Str) : noEdgeWs (trimJS l) = true := by
  unfold noEdgeWs trimJS
  rw [Bool.and_eq_true]
  constructor
  · cases hr : ((l.dropWhile jsWhitespace).reverse.dropWhile jsWhitespace).reverse.head? with
    | none => rfl
    | some c =>
      obtain ⟨pre, hpre⟩ :=
        List.dropWhile_suffix (l := (l.dropWhile jsWhitespace).reverse) jsWhitespace
      have hm : l.dropWhile jsWhitespace =
          ((l.dropWhile jsWhitespace).reverse.dropWhile jsWhitespace).reverse ++ pre.reverse := by
        have := congrArg List.reverse hpre
        rw [List.reverse_append, List.reverse_reverse] at this
        exact this.symm
      have hhead : (l.dropWhile jsWhitespace).head? = some c := by
        rw [hm]
        cases hd : ((l.dropWhile jsWhitespace).reverse.dropWhile jsWhitespace).reverse with
        | nil => rw [hd] at hr; cases hr
        | cons c0 t0 =>
          rw [hd] at hr
          injection hr with hr'
          simp [hr']
      have hws := head?_dropWhile hhead
      simp [hws]
  · rw [List.getLast?_reverse]
    cases hd : ((l.dropWhile jsWhitespace).reverse.dropWhile jsWhitespace).head? with
    | none => rfl
    | some c =>
      have := head?_dropWhile hd
      simp [this]

theorem trimJS_eq_nil_iff (l : Str) :
    (trimJS l).isEmpty = true ↔ ∀ c ∈ l, jsWhitespace c = true := by
  rw [List.isEmpty_iff]
  unfold trimJS
  rw [List.reverse_eq_nil_iff, List.dropWhile_eq_nil_iff]
  constructor
  · intro h c hc
    have hdw : ∀ x ∈ l.dropWhile jsWhitespace, jsWhitespace x = true := by
      intro x hx
      exact h x (List.mem_reverse.mpr hx)
    have hsplit := List.takeWhile_append_dropWhile (p := jsWhitespace) (l := l)
    rw [← hsplit] at hc
    rcases List.mem_append.mp hc with htk | hdr
    · exact List.mem_takeWhile_imp htk
    · exact hdw c hdr
  · intro h x hx
    exact h x ((List.dropWhile_suffix jsWhitespace).sublist.subset (List.mem_reverse.mp hx))

theorem extractBraces_wrapFences (inner : Str) (hhead : inner.head? = some lbrace)
    (hlast : inner.getLast? = some rbrace) :
    extractBraces (wrapFences inner) = some inner := by
  obtain ⟨tail, rfl⟩ : ∃ t, inner = lbrace :: t := by
    cases inner with
    | nil => simp at hhead
    | cons c t =>
      injection hhead with h'
      exact ⟨t, by rw [h']⟩
  obtain ⟨d, ds, rfl⟩ : ∃ d ds, tail = d :: ds := by
    cases tail with
    | nil => exact absurd hlast (by decide)
    | cons d ds => exact ⟨d, ds, rfl⟩
  have hlast' : (d :: ds).getLast? = some rbrace := by
    rw [← List.head?_reverse] at hlast
    rw [List.reverse_cons] at hlast
    rw [← List.head?_reverse]
    cases hrev : (d :: ds).reverse with
    | nil => exact absurd (congrArg List.length hrev) (by simp)
    | cons e es =>
      rw [hrev] at hlast
      simpa using hlast
  have h1 : (wrapFences (lbrace :: d :: ds)).dropWhile (fun c => !(c == lbrace)) =
      lbrace :: ((d :: ds) ++ fencePost) := by
    unfold wrapFences
    rw [List.append_assoc]
    rw [dropWhile_append_all _ _ (by decide)]
    rw [List.cons_append, List.dropWhile_cons, if_neg (by decide)]
  have h2 : cutAtLastRbrace ((d :: ds) ++ fencePost) = some (d :: ds) := by
    unfold cutAtLastRbrace
    rw [List.reverse_append]
    rw [dropWhile_append_all _ _ (by decide)]
    obtain ⟨es, hes⟩ : ∃ es, (d :: ds).reverse = rbrace :: es := by
      cases hrev : (d :: ds).reverse with
      | nil => exact absurd (congrArg List.length hrev) (by simp)
      | cons e es' =>
        have h3 := List.head?_reverse (d :: ds)
        rw [hrev, hlast'] at h3
        injection h3 with h4
        exact ⟨es', by rw [h4]⟩
    rw [hes, List.dropWhile_cons, if_neg (by decide)]
    rw [← hes, List.reverse_reverse]
  unfold extractBraces
  rw [h1]
  change (match cutAtLastRbrace ((d :: ds) ++ fencePost) with
    | some u => some (lbrace :: u)
    | none => none) = some (lbrace :: d :: ds)
  rw [h2]

/-! Claims -/

/-- C1 (counterexample): for the valid dataset `csvEx` and model text
`hello` (no brace-delimited substring), the report endpoint answers the
500 `invalidFormat` response, not a 200 fallback report. -/
theorem C1_counterexample :
    processReport csvEx (str "hello") = ReportResult.invalidFormat ∧
    (processReport csvEx (str "hello")).status = 500 := ⟨rfl, rfl⟩

/-- C1 (amended): when the sanitized model text has no brace-delimited
substring the endpoint answers 500; when it has one that fails to parse or
validate, the endpoint answers 200 with the fully-populated fallback
report. -/
theorem C1_amended_fallback_or_500 (csv : CSVData) (raw : Str) :
    (extractBraces (sanitizeOutput raw) = none →
      processReport csv raw = ReportResult.invalidFormat ∧
      (processReport csv raw).status = 500) ∧
    (∀ s, extractBraces (sanitizeOutput raw) = some s → parseReport s = none →
      processReport csv raw = ReportResult.ok (fallbackReport csv) ∧
      validateReport (fallbackReport csv) = true ∧
      (processReport csv raw).status = 200) := by
  constructor
  · intro he
    have h1 : processReport csv raw = ReportResult.invalidFormat := by
      unfold processReport
      rw [he]
    exact ⟨h1, by rw [h1]; rfl⟩
  · intro s he hp
    have h1 : processReport csv raw = ReportResult.ok (fallbackReport csv) := by
      unfold processReport
      rw [he]
      change (match parseReport s with
        | some report => ReportResult.ok report
        | none => ReportResult.ok (fallbackReport csv)) = _
      rw [hp]
    exact ⟨h1, validateReport_fallback csv, by rw [h1]; rfl⟩

/-- C1 (witness for the amended claim at concrete inputs). -/
theorem C1_witness :
    processReport csvEx (str "no braces at all") = ReportResult.invalidFormat ∧
    processReport csvEx (str "\x7bnot json\x7d") = ReportResult.ok (fallbackReport csvEx) := by
  constructor
  · exact ((C1_amended_fallback_or_500 csvEx (str "no braces at all")).1 rfl).1
  · exact ((C1_amended_fallback_or_500 csvEx (str "\x7bnot json\x7d")).2
      (str "\x7bnot json\x7d") rfl rfl).1

/-- C2 (counterexample): `exHistory` has eleven eligible entries, but with a
report entry among the last ten raw entries the context window is the nine
eligible entries of the last ten raw entries, not the last ten eligible
entries. -/
theorem C2_counterexample :
    10 < List.countP eligible exHistory ∧
    recentHistory exHistory ≠ sliceLast 10 (exHistory.filter eligible) ∧
    (recentHistory exHistory).length = 9 := by
  refine ⟨by decide, by decide, by decide⟩

/-- C2 (amended): the context window is the eligible entries among the last
ten raw history entries — at most ten, order preserved, report entries
excluded; it equals the last ten eligible entries exactly when the last ten
raw entries are all eligible. -/
theorem C2_amended_recent_history (h : List ChatMessage) :
    (recentHistory h).length ≤ 10 ∧
    List.Sublist (recentHistory h) h ∧
    (∀ m ∈ recentHistory h, eligible m = true) ∧
    ((∀ m ∈ sliceLast 10 h, eligible m = true) →
      recentHistory h = sliceLast 10 (h.filter eligible)) := by
  refine ⟨?_, ?_, ?_, ?_⟩
  · calc (recentHistory h).length ≤ (sliceLast 10 h).length :=
          List.length_filter_le _ _
      _ ≤ 10 := by unfold sliceLast; rw [List.length_drop]; omega
  · exact (List.filter_sublist _).trans (List.drop_sublist _ _)
  · intro m hm
    exact (List.mem_filter.mp hm).2
  · intro hall
    have hfix : recentHistory h = sliceLast 10 h :=
      List.filter_eq_self.mpr hall
    by_cases hlen : h.length ≤ 10
    · have hslice : sliceLast 10 h = h := by
        unfold sliceLast
        rw [show h.length - 10 = 0 by omega]
        exact List.drop_zero h
      have hallh : ∀ m ∈ h, eligible m = true := by rw [← hslice]; exact hall
      rw [hfix, List.filter_eq_self.mpr hallh]
    · push_neg at hlen
      have hsplit : h.take (h.length - 10) ++ sliceLast 10 h = h :=
        List.take_append_drop _ h
      have hback : (sliceLast 10 h).length = 10 := by
        unfold sliceLast; rw [List.length_drop]; omega
      have hfiltered : h.filter eligible =
          (h.take (h.length - 10)).filter eligible ++ sliceLast 10 h := by
        conv_lhs => rw [← hsplit]
        rw [List.filter_append, List.filter_eq_self.mpr hall]
      rw [hfix, hfiltered, sliceLast_append 10 _ _ hback]

/-- C2 (witness for the amended claim at a concrete all-eligible history
longer than ten entries). -/
theorem C2_witness :
    (recentHistory allUserHistory).length ≤ 10 ∧
    recentHistory allUserHistory = sliceLast 10 (allUserHistory.filter eligible) :=
  ⟨(C2_amended_recent_history allUserHistory).1,
   (C2_amended_recent_history allUserHistory).2.2.2 (by decide)⟩

/-- C3: every 200 response of the report endpoint carries a report in which
all six required top-level sections are present (and truthy): the parsed
payload only survives the validation, and the fallback always validates. -/
theorem C3_six_sections (csv : CSVData) (raw : Str) (j : Json)
    (h : processReport csv raw = ReportResult.ok j) :
    validateReport j = true := by
  unfold processReport at h
  rcases he : extractBraces (sanitizeOutput raw) with _ | s
  · rw [he] at h
    exact ReportResult.noConfusion h
  · rw [he] at h
    change (match parseReport s with
      | some report => ReportResult.ok report
      | none => ReportResult.ok (fallbackReport csv)) = ReportResult.ok j at h
    rcases hp : parseReport s with _ | r
    · rw [hp] at h
      injection h with hj
      rw [← hj]
      exact validateReport_fallback csv
    · rw [hp] at h
      injection h with hj
      unfold parseReport at hp
      rcases hq : parseJson s with _ | v
      · rw [hq] at hp
        exact Option.noConfusion hp
      · rw [hq] at hp
        change (if validateReport v = true then some v else none) = some r at hp
        by_cases hv : validateReport v = true
        · rw [if_pos hv] at hp
          injection hp with hrv
          rw [← hj, ← hrv]
          exact hv
        · rw [if_neg hv] at hp
          exact Option.noConfusion hp

/-- C3 (witness at a concrete malformed payload: the fallback is returned
and validates). -/
theorem C3_witness :
    processReport csvEx (str "\x7bbad\x7d") = ReportResult.ok (fallbackReport csvEx) ∧
    validateReport (fallbackReport csvEx) = true :=
  ⟨rfl, C3_six_sections csvEx (str "\x7bbad\x7d") (fallbackReport csvEx) rfl⟩

/-- C4 (counterexample): one single pass per pattern can splice new banned
substrings out of the surrounding text: the sanitizer output can contain
`javascript:`, a complete script block, and an inline-handler pattern. -/
theorem C4_counterexample :
    sanitizeOutput (str "javajavascript:script:") = jsUri ∧
    sanitizeOutput (str "<scr<script></script>ipt>x</script>") = str "<script>x</script>" ∧
    (matchTag scriptOpen scriptClos
      (sanitizeOutput (str "<scr<script></script>ipt>x</script>"))).isSome = true ∧
    sanitizeOutput (str "oonx=nclick=") = str "onclick=" ∧
    (matchOn (sanitizeOutput (str "oonx=nclick="))).isSome = true :=
  ⟨by decide, by decide, by decide, by decide, by decide⟩

/-- C4 (amended): trimming is the last step, so for every input the
sanitizer output has neither a leading nor a trailing whitespace character;
the per-pattern no-occurrence clauses do not survive resubstitution splices
(see the counterexample). -/
theorem C4_amended_trimmed (s : Str) : noEdgeWs (sanitizeOutput s) = true :=
  trimJS_noEdge _

/-- C5: a complete valid report payload wrapped in markdown code fences is
extracted, parsed and returned exactly (200, not the fallback). -/
theorem C5_fenced_json_extracted (csv : CSVData) (inner : Str) (j : Json)
    (hhead : inner.head? = some lbrace) (hlast : inner.getLast? = some rbrace)
    (hsan : sanitizeOutput (wrapFences inner) = wrapFences inner)
    (hparse : parseJson inner = some j) (hvalid : validateReport j = true) :
    processReport csv (wrapFences inner) = ReportResult.ok j := by
  unfold processReport
  rw [hsan, extractBraces_wrapFences inner hhead hlast]
  have hp : parseReport inner = some j := by
    unfold parseReport
    rw [hparse]
    change (if validateReport j = true then some j else none) = some j
    rw [if_pos hvalid]
  change (match parseReport inner with
    | some report => ReportResult.ok report
    | none => ReportResult.ok (fallbackReport csv)) = ReportResult.ok j
  rw [hp]

set_option maxRecDepth 8000 in
/-- C5 (witness at a concrete fenced payload). -/
theorem C5_witness :
    processReport csvEx (wrapFences innerEx) = ReportResult.ok jEx :=
  C5_fenced_json_extracted csvEx innerEx jEx (by decide) (by decide) rfl rfl rfl

/-- C6: for a dataset whose row count exceeds its sample size, the chat
context block contains the sampling-limitation disclaimer, the file name,
the labelled total row count, the labelled column count, and every column
name. -/
theorem C6_context_disclaimer (d : CSVData) (h : d.sample.length < d.rowCount) :
    str "ANALYSIS SCOPE: This analysis covers " <:+: csvContextChat d ∧
    str " sample records from a total dataset of " <:+: csvContextChat d ∧
    d.fileName <:+: csvContextChat d ∧
    (str "Total Records: " ++ natStr d.rowCount) <:+: csvContextChat d ∧
    (str "Data Fields (" ++ natStr d.schema.length ++ str "): ") <:+: csvContextChat d ∧
    (∀ col ∈ d.schema, col <:+: csvContextChat d) := by
  unfold csvContextChat
  simp only [List.append_assoc]
  refine ⟨?_, ?_, ?_, ?_, ?_, ?_⟩
  · exact within_appL _ (within_appL _ (within_appL _ (within_appL _ (within_appL _
      (within_appL _ (within_appL _ (within_appL _ (within_appL _ (within_appL _
      (within_appL _ (within_appL _ (within_appL _ (within_appL _ (within_appL _
      (within_front _ _)))))))))))))))
  · exact within_appL _ (within_appL _ (within_appL _ (within_appL _ (within_appL _
      (within_appL _ (within_appL _ (within_appL _ (within_appL _ (within_appL _
      (within_appL _ (within_appL _ (within_appL _ (within_appL _ (within_appL _
      (within_appL _ (within_appL _ (within_front _ _)))))))))))))))))
  · exact within_appL _ (within_front _ _)
  · exact within_appL _ (within_appL _ (within_appL _ (within_front2 _ _ _)))
  · exact within_appL _ (within_appL _ (within_appL _ (within_appL _ (within_appL _
      (within_appL _ (within_front3 _ _ _ _))))))
  · intro col hcol
    refine (within_joinWith (str ", ") d.schema col hcol).trans ?_
    exact within_appL _ (within_appL _ (within_appL _ (within_appL _ (within_appL _
      (within_appL _ (within_appL _ (within_appL _ (within_appL _
      (within_front _ _)))))))))

/-- C6 (witness at a concrete dataset with 1000 rows and a 1-row sample). -/
theorem C6_witness :
    dEx.sample.length < dEx.rowCount ∧
    str "ANALYSIS SCOPE: This analysis covers " <:+: csvContextChat dEx ∧
    (str "Total Records: " ++ natStr dEx.rowCount) <:+: csvContextChat dEx :=
  ⟨by decide, (C6_context_disclaimer dEx (by decide)).1,
   (C6_context_disclaimer dEx (by decide)).2.2.2.1⟩

/-- C7: the chat endpoint takes the 400 validation branch exactly for
messages all of whose characters are whitespace (in particular the empty
message). -/
theorem C7_empty_message_400 (m : Str) :
    (chatValidationError m).isSome = true ↔ ∀ c ∈ m, jsWhitespace c = true := by
  have hiff : (chatValidationError m).isSome = (trimJS m).isEmpty := by
    unfold chatValidationError
    by_cases h : (trimJS m).isEmpty
    · rw [if_pos h, h]; rfl
    · rw [if_neg h]
      simp only [Option.isSome_none]
      exact (Bool.eq_false_iff.mpr h).symm
  rw [hiff]
  exact trimJS_eq_nil_iff m

/-- C7 (witness: a whitespace-only message is rejected, a non-blank one is
not). -/
theorem C7_witness :
    (chatValidationError (str "   ")).isSome = true ∧
    ¬((chatValidationError (str " hi ")).isSome = true) := by
  constructor
  · exact (C7_empty_message_400 (str "   ")).mpr (by decide)
  · intro hcontra
    have hall := (C7_empty_message_400 (str " hi ")).mp hcontra
    exact absurd (hall 'h' (by decide)) (by decide)

/-- C8 (counterexample): with no candidate text the chat route's returned
text is the literal `Sorry, I couldn't generate a response.`, not
`could not generate a response`. -/
theorem C8_counterexample :
    chatResponseText none ≠ str "could not generate a response" ∧
    chatResponseText none = chatFallbackText := ⟨by decide, by decide⟩

/-- C8 (amended): the sentinel returned when the candidate text is absent
(or empty, which is equally falsy) is the fixed string
`Sorry, I couldn't generate a response.`, unchanged by the sanitizer. -/
theorem C8_amended_sentinel :
    chatResponseText none = chatFallbackText ∧
    chatResponseText (some []) = chatFallbackText := ⟨by decide, by decide⟩

/-- C9: clearing the chat yields the single fixed greeting regardless of
the prior state, and clearing again (at the same clock reading, the
timestamp being the explicit `now` parameter) gives an equal conversation. -/
theorem C9_clear_idempotent (t t' : Nat) (prev : List ChatMessage) :
    (clearChat t prev).length = 1 ∧
    clearChat t prev = [⟨MType.bot, greetingText, t⟩] ∧
    clearChat t (clearChat t' prev) = clearChat t prev :=
  ⟨rfl, rfl, rfl⟩

/-- C10: the fallback report's `dataset_summary` mirrors the request's
dataset (rows and columns), while each of the other five sections is the
same for every dataset. -/
theorem C10_fallback_mirrors_dataset (csv : CSVData) :
    getField (fallbackReport csv) (str "dataset_summary") =
      some (.obj [(str "rows", .num csv.rowCount), (str "columns", .num csv.schema.length)]) ∧
    ∀ k ∈ [str "churn_analysis", str "financial_projections", str "demand_forecasting",
           str "scenario_analysis", str "recommendations"],
      ∀ csv' : CSVData, getField (fallbackReport csv) k = getField (fallbackReport csv') k := by
  refine ⟨rfl, ?_⟩
  intro k hk csv'
  simp only [List.mem_cons, List.not_mem_nil, or_false] at hk
  rcases hk with rfl | rfl | rfl | rfl | rfl <;> rfl

/-- C10 (witness at two concrete datasets). -/
theorem C10_witness :
    getField (fallbackReport csvEx) (str "dataset_summary") =
      some (.obj [(str "rows", .num 5), (str "columns", .num 2)]) ∧
    getField (fallbackReport csvEx) (str "churn_analysis") =
      getField (fallbackReport csvEx2) (str "churn_analysis") :=
  ⟨(C10_fallback_mirrors_dataset csvEx).1,
   (C10_fallback_mirrors_dataset csvEx).2 (str "churn_analysis") (by decide) csvEx2⟩

end RevenueRescue
